import Mathlib

/-!
# Car Tinder backend: request-to-store contract

A shallow embedding of the six data routes of `Car_Tinder_backend/server.js`.

* JavaScript values are a small inductive type (`JSValue`) with the language's
  truthiness test, property lookup and indexing.
* `db.query(sql, params, callback)` is a node of an interaction tree
  (`Handler.query`): the handler names the statement and its parameters and
  gives a continuation awaiting the two callback arguments `(err, results)`.
* `Handler.run` plays such a tree against a store and records the response,
  the list of store calls made, and the final store state.
-/

set_option autoImplicit false

namespace CarTinder

/-! ## JavaScript values -/

/-- An IEEE double, split into the cases that matter for `ToBoolean`:
`finite neg m e` stands for `(-1)^neg * m * 2^e`, so both zeros have `m = 0`. -/
inductive JSNumber where
  | nan
  | infinite (negative : Bool)
  | finite (negative : Bool) (mantissa : Nat) (exponent : Int)
  deriving DecidableEq, Repr

/-- The JavaScript values that flow through the handlers. `string` holds the
well-formed strings; `surrogate u` is the one-unit string made of the unpaired
UTF-16 surrogate `u`, which indexing into a string can produce. -/
inductive JSValue where
  | undefined
  | null
  | bool (b : Bool)
  | number (n : JSNumber)
  | string (s : String)
  | surrogate (unit : Nat)
  | array (items : List JSValue)
  | object (fields : List (String × JSValue))

namespace JSValue

mutual
/-- Structural comparison of two values. -/
def same : JSValue → JSValue → Bool
  | .undefined, .undefined => true
  | .null, .null => true
  | .bool a, .bool b => a == b
  | .number a, .number b => a == b
  | .string a, .string b => a == b
  | .surrogate a, .surrogate b => a == b
  | .array a, .array b => sameItems a b
  | .object a, .object b => sameFields a b
  | _, _ => false
/-- Structural comparison of two arrays of values. -/
def sameItems : List JSValue → List JSValue → Bool
  | [], [] => true
  | x :: xs, y :: ys => same x y && sameItems xs ys
  | _, _ => false
/-- Structural comparison of two field lists. -/
def sameFields : List (String × JSValue) → List (String × JSValue) → Bool
  | [], [] => true
  | (k, x) :: xs, (l, y) :: ys => k == l && same x y && sameFields xs ys
  | _, _ => false
end

mutual
theorem same_iff : ∀ a b : JSValue, same a b = true ↔ a = b
  | .undefined, b => by cases b <;> simp [same]
  | .null, b => by cases b <;> simp [same]
  | .bool _, b => by cases b <;> simp [same]
  | .number _, b => by cases b <;> simp [same]
  | .string _, b => by cases b <;> simp [same]
  | .surrogate _, b => by cases b <;> simp [same]
  | .array a, b => by
      cases b <;> simp [same]
      exact sameItems_iff a _
  | .object a, b => by
      cases b <;> simp [same]
      exact sameFields_iff a _
theorem sameItems_iff : ∀ a b : List JSValue, sameItems a b = true ↔ a = b
  | [], b => by cases b <;> simp [sameItems]
  | x :: xs, b => by
      cases b with
      | nil => simp [sameItems]
      | cons y ys => simp [sameItems, same_iff x y, sameItems_iff xs ys]
theorem sameFields_iff :
    ∀ a b : List (String × JSValue), sameFields a b = true ↔ a = b
  | [], b => by cases b <;> simp [sameFields]
  | (k, x) :: xs, b => by
      cases b with
      | nil => simp [sameFields]
      | cons y ys =>
        obtain ⟨l, y⟩ := y
        simp [sameFields, same_iff x y, sameFields_iff xs ys, and_assoc]
end

instance : DecidableEq JSValue := fun a b => decidable_of_iff _ (same_iff a b)

/-- The number literal `n` for a natural `n` (exponent zero). -/
def ofNat (n : Nat) : JSValue := .number (.finite false n 0)

end JSValue

/-- JavaScript `ToBoolean` on numbers: `NaN`, `+0` and `-0` are falsy. -/
def JSNumber.truthy : JSNumber → Bool
  | .nan => false
  | .infinite _ => true
  | .finite _ m _ => m != 0

/-- JavaScript `ToBoolean`: the falsy values are `undefined`, `null`, `false`,
`NaN`, the zeros and the empty string; every non-empty string, array and
object is truthy. -/
def JSValue.truthy : JSValue → Bool
  | .undefined => false
  | .null => false
  | .bool b => b
  | .number n => n.truthy
  | .string s => s != ""
  | .surrogate _ => true
  | .array _ => true
  | .object _ => true

/-- Reading the own property `k` of a plain object given by its field list:
the value stored under `k`, or `undefined` when the object has no such key. -/
def getField (fields : List (String × JSValue)) (k : String) : JSValue :=
  (fields.lookup k).getD .undefined

/-- The first UTF-16 code unit of a character, as a one-unit string: the
character itself inside the basic plane, else its high surrogate
`0xD800 + (c - 0x10000) / 0x400`. -/
def firstCodeUnit (c : Char) : JSValue :=
  if c.toNat < 0x10000 then .string (String.singleton c)
  else .surrogate (0xD800 + (c.toNat - 0x10000) / 0x400)

/-- The expression `v[0]`. On `undefined` and `null` it throws a `TypeError`
(`none`); on an array it is the first element or `undefined`; on an object
it reads the key `"0"`; on a string it is the first UTF-16 code unit or
`undefined`; booleans and numbers have no such property. -/
def JSValue.index0 : JSValue → Option JSValue
  | .undefined => none
  | .null => none
  | .bool _ => some .undefined
  | .number _ => some .undefined
  | .string s =>
      match s.toList with
      | [] => some .undefined
      | c :: _ => some (firstCodeUnit c)
  | .surrogate u => some (.surrogate u)
  | .array items => some (items.headD .undefined)
  | .object fields => some (getField fields "0")

/-- The comparison `v === s` against a string literal `s`: true exactly when
`v` is a string with the same characters. -/
def JSValue.strictEqString (v : JSValue) (s : String) : Bool :=
  match v with
  | .string t => t == s
  | _ => false

/-! ## Requests, responses and the store interface -/

/-- What a handler reads of an Express request: `req.body`, the object left
by the `express.json()` middleware, and `req.params`, the route parameters. -/
structure Request where
  body : List (String × JSValue)
  params : List (String × String)

/-- Reading a route parameter: a string when the route binds it. -/
def getParam (params : List (String × String)) (k : String) : JSValue :=
  match params.lookup k with
  | some s => .string s
  | none => .undefined

/-- What `res.status(code).json(value)` sends: the status code (200 when
`status` is not called) and the value handed to `json`. -/
structure Response where
  status : Nat
  body : JSValue
  deriving DecidableEq

/-- The error object the store driver passes to a callback, as far as the
handlers read it: `err.message` and `err.sqlState`. -/
structure StoreError where
  message : JSValue
  sqlState : JSValue
  deriving DecidableEq

/-- The two arguments the store passes to the callback of `db.query`:
`err` (`null`, here `none`, or an error object) and `results`. -/
structure StoreReply where
  err : Option StoreError
  results : JSValue
  deriving DecidableEq

/-- One invocation of `db.query`: the statement text and the parameter array
(`none` for the two-argument form `db.query(sql, callback)`). -/
structure Call where
  sql : String
  params : Option (List JSValue)
  deriving DecidableEq

/-- The behaviour of a route handler as an interaction tree: it sends a
response, dies on an uncaught exception, or calls `db.query` and continues
in the callback with the store's reply. -/
inductive Handler where
  | respond (r : Response)
  | crash
  | query (call : Call) (callback : StoreReply → Handler)

/-- What one request leaves behind: the response sent (if any), the store
calls made in order, and the store state afterwards. -/
structure Outcome (σ : Type) where
  response : Option Response
  calls : List Call
  store : σ

/-- Plays a handler against a store `exec`, which answers each call from its
current state and moves to a new state. -/
def Handler.run {σ : Type} (exec : σ → Call → StoreReply × σ) :
    Handler → σ → Outcome σ
  | .respond r, s => ⟨some r, [], s⟩
  | .crash, s => ⟨none, [], s⟩
  | .query call callback, s =>
      let o := Handler.run exec (callback (exec s call).1) (exec s call).2
      ⟨o.response, call :: o.calls, o.store⟩

/-- The object literal `{ message: v }`. -/
def messageBody (v : JSValue) : JSValue := .object [("message", v)]

/-- The object literal `{ error: v }`. -/
def errorBody (v : JSValue) : JSValue := .object [("error", v)]

/-- The call `res.json(v)`: status 200. -/
def json (v : JSValue) : Handler := .respond ⟨200, v⟩

/-- The call `res.status(code).json(v)`. -/
def statusJson (code : Nat) (v : JSValue) : Handler := .respond ⟨code, v⟩

/-! ## The statements sent to the store -/

/-- The template literal of `GET /cars`, line breaks and indentation kept. -/
def carsSql : String :=
  "\n    SELECT \n" ++
  "      c.car_id, c.brand, c.model, c.year, c.price, c.fuel_type, c.transmission, \n" ++
  "      c.seating_capacity, c.image_url, d.dealer_name,\n" ++
  "      get_avg_rating(c.car_id) AS avg_rating,\n" ++
  "      get_total_likes(c.car_id) AS total_likes\n" ++
  "    FROM Cars c\n" ++
  "    LEFT JOIN Dealers d ON c.dealer_id = d.dealer_id;\n  "

/-- The template literal of `POST /api/like`. -/
def likeSql : String :=
  "\n    INSERT INTO LikedCars (user_id, car_id)\n" ++
  "    VALUES (?, ?)\n" ++
  "    ON DUPLICATE KEY UPDATE liked_at = NOW()\n  "

/-- The statement of `DELETE /api/resetLikes`. -/
def resetLikesSql : String := "DELETE FROM LikedCars WHERE user_id = ?"

/-- The statement of `POST /testdrive`. -/
def testdriveSql : String := "CALL book_test_drive(?, ?, ?)"

/-- The statement of `GET /liked/:userId`. -/
def likedSql : String := "CALL get_liked_cars(?)"

/-- The statement of `GET /dealer/logs`. -/
def dealerLogsSql : String :=
  "SELECT * FROM DealerActivityLog ORDER BY logged_at DESC"

/-! ## The route handlers -/

/-- Handler of `GET /cars`. -/
def getCars (_req : Request) : Handler :=
  .query ⟨carsSql, none⟩ fun reply =>
    match reply.err with
    | some err => statusJson 500 (errorBody err.message)
    | none => json reply.results

/-- Handler of `POST /api/like`. -/
def postApiLike (req : Request) : Handler :=
  let user_id := getField req.body "user_id"
  let car_id := getField req.body "car_id"
  if !user_id.truthy || !car_id.truthy then
    statusJson 400 (messageBody (.string "Missing data"))
  else
    .query ⟨likeSql, some [user_id, car_id]⟩ fun reply =>
      match reply.err with
      | some _ => statusJson 500 (messageBody (.string "DB error"))
      | none => json (messageBody (.string "Car liked!"))

/-- Handler of `DELETE /api/resetLikes`. -/
def deleteApiResetLikes (req : Request) : Handler :=
  let user_id := getField req.body "user_id"
  .query ⟨resetLikesSql, some [user_id]⟩ fun reply =>
    match reply.err with
    | some _ => statusJson 500 (messageBody (.string "DB error"))
    | none => json (messageBody (.string "Likes reset successfully!"))

/-- Handler of `POST /testdrive`. -/
def postTestdrive (req : Request) : Handler :=
  let user_id := getField req.body "user_id"
  let car_id := getField req.body "car_id"
  let date := getField req.body "date"
  if !user_id.truthy || !car_id.truthy || !date.truthy then
    statusJson 400 (messageBody (.string "Missing fields"))
  else
    .query ⟨testdriveSql, some [user_id, car_id, date]⟩ fun reply =>
      match reply.err with
      | some err =>
          if err.sqlState.strictEqString "45000" then
            statusJson 400
              (messageBody (.string "You already booked this car on this date."))
          else
            statusJson 500 (messageBody err.message)
      | none => json (messageBody (.string "Test drive booked successfully!"))

/-- Handler of `GET /liked/:userId`. -/
def getLiked (req : Request) : Handler :=
  let userId := getParam req.params "userId"
  .query ⟨likedSql, some [userId]⟩ fun reply =>
    match reply.err with
    | some err => statusJson 500 (errorBody err.message)
    | none =>
        match reply.results.index0 with
        | some first => json first
        | none => .crash

/-- Handler of `GET /dealer/logs`. -/
def getDealerLogs (_req : Request) : Handler :=
  .query ⟨dealerLogsSql, none⟩ fun reply =>
    match reply.err with
    | some err => statusJson 500 (errorBody err.message)
    | none => json reply.results

/-- The six data operations of the router. -/
inductive Route where
  | cars
  | like
  | resetLikes
  | testdrive
  | liked
  | dealerLogs
  deriving DecidableEq, Repr

/-- The handler registered for each route. -/
def Route.handler : Route → Request → Handler
  | .cars => getCars
  | .like => postApiLike
  | .resetLikes => deleteApiResetLikes
  | .testdrive => postTestdrive
  | .liked => getLiked
  | .dealerLogs => getDealerLogs

/-! ## A model of the store -/

/-- A row of `LikedCars`. -/
structure LikedCar where
  user_id : JSValue
  car_id : JSValue
  liked_at : Nat
  deriving DecidableEq

/-- A test-drive booking, keyed by all three of its columns. -/
structure Booking where
  user_id : JSValue
  car_id : JSValue
  date : JSValue
  deriving DecidableEq

/-- The part of the database the writing routes touch; `now` is the clock
read by `NOW()`. -/
structure Db where
  likes : List LikedCar
  bookings : List Booking
  now : Nat
  deriving DecidableEq

/-- The key `(user_id, car_id)` of a `LikedCars` row. -/
def LikedCar.key (r : LikedCar) : JSValue × JSValue := (r.user_id, r.car_id)

/-- Modelled from the spec: the unique key of `LikedCars` (the schema is not
part of the sources). "Unique per (user_id, car_id) — a repeated like updates
the timestamp rather than duplicating the row": a row with the key already
present gets `liked_at` set to the clock, otherwise a new row is added. -/
def Db.upsertLike (db : Db) (u c : JSValue) : Db :=
  if db.likes.any (fun r => decide (r.key = (u, c))) then
    { db with
      likes := db.likes.map fun r =>
        if r.key = (u, c) then { r with liked_at := db.now } else r
      now := db.now + 1 }
  else
    { db with likes := db.likes ++ [⟨u, c, db.now⟩], now := db.now + 1 }

/-- The statement `DELETE FROM LikedCars WHERE user_id = ?`: the rows of the
given user go, every other row stays. -/
def Db.deleteLikes (db : Db) (u : JSValue) : Db :=
  { db with likes := db.likes.filter fun r => !decide (r.user_id = u) }

/-- The error the store raises with `SIGNAL SQLSTATE '45000'`. -/
def duplicateBookingError : StoreError :=
  ⟨.string "Duplicate booking", .string "45000"⟩

/-- Modelled from the spec: the stored procedure `book_test_drive` (not part
of the sources). "The store enforces at most one booking per (user_id,
car_id, date) and signals a specific violation state when that uniqueness is
breached": a triple already booked is refused with SQLSTATE 45000 and nothing
is written, a new triple is recorded. -/
def Db.bookTestDrive (db : Db) (u c d : JSValue) : StoreReply × Db :=
  if (⟨u, c, d⟩ : Booking) ∈ db.bookings then
    (⟨some duplicateBookingError, .undefined⟩, db)
  else
    (⟨none, .array []⟩, { db with bookings := db.bookings ++ [⟨u, c, d⟩] })

/-- The model store as the collaborator behind `db.query`: it recognises the
three writing statements of the router by their text and parameter count;
any other statement reads nothing and changes nothing. -/
def Db.exec (db : Db) (call : Call) : StoreReply × Db :=
  if call.sql = likeSql then
    match call.params with
    | some [u, c] => (⟨none, .array []⟩, db.upsertLike u c)
    | _ => (⟨some ⟨.string "Bad parameters", .undefined⟩, .undefined⟩, db)
  else if call.sql = resetLikesSql then
    match call.params with
    | some [u] => (⟨none, .array []⟩, db.deleteLikes u)
    | _ => (⟨some ⟨.string "Bad parameters", .undefined⟩, .undefined⟩, db)
  else if call.sql = testdriveSql then
    match call.params with
    | some [u, c, d] => db.bookTestDrive u c d
    | _ => (⟨some ⟨.string "Bad parameters", .undefined⟩, .undefined⟩, db)
  else
    (⟨none, .array []⟩, db)

/-- A store without state that answers every call with the same reply. -/
def constStore (reply : StoreReply) : Unit → Call → StoreReply × Unit :=
  fun s _ => (reply, s)

/-! ## Basic facts -/

theorem getField_of_lookup_none (fields : List (String × JSValue)) (k : String)
    (h : fields.lookup k = none) : getField fields k = .undefined := by
  simp [getField, h]

theorem getField_of_lookup_some (fields : List (String × JSValue)) (k : String)
    (v : JSValue) (h : fields.lookup k = some v) : getField fields k = v := by
  simp [getField, h]

theorem strictEqString_iff (v : JSValue) (s : String) :
    v.strictEqString s = true ↔ v = .string s := by
  cases v <;> simp [JSValue.strictEqString]

theorem run_respond {σ : Type} (exec : σ → Call → StoreReply × σ) (r : Response)
    (s : σ) : (Handler.respond r).run exec s = ⟨some r, [], s⟩ := by
  simp [Handler.run]

theorem run_query {σ : Type} (exec : σ → Call → StoreReply × σ) (call : Call)
    (k : StoreReply → Handler) (s : σ) :
    (Handler.query call k).run exec s =
      ⟨((k (exec s call).1).run exec (exec s call).2).response,
        call :: ((k (exec s call).1).run exec (exec s call).2).calls,
        ((k (exec s call).1).run exec (exec s call).2).store⟩ := by
  simp [Handler.run]

/-! ## Validation failures -/

/-- C1: a `POST /testdrive` request whose body lacks `user_id`, `car_id` or
`date` is answered with status 400 and `{message: "Missing fields"}`, and
`db.query` is not invoked: no call is recorded and the store is untouched. -/
theorem postTestdrive_missing_fields {σ : Type} (exec : σ → Call → StoreReply × σ)
    (s : σ) (req : Request)
    (h : req.body.lookup "user_id" = none ∨ req.body.lookup "car_id" = none ∨
      req.body.lookup "date" = none) :
    ((postTestdrive req).run exec s).response =
        some ⟨400, .object [("message", .string "Missing fields")]⟩ ∧
      ((postTestdrive req).run exec s).calls = [] ∧
      ((postTestdrive req).run exec s).store = s := by
  rcases h with h | h | h <;>
    simp [postTestdrive, getField, h, JSValue.truthy, statusJson, messageBody,
      Handler.run]

/-- C1 at a body with `user_id` and `car_id` but no `date`, against a store
that would have accepted the booking. -/
theorem postTestdrive_missing_fields_witness :
    List.lookup "date" [("user_id", JSValue.ofNat 1), ("car_id", JSValue.ofNat 2)] = none ∧
      ((postTestdrive ⟨[("user_id", JSValue.ofNat 1), ("car_id", JSValue.ofNat 2)], []⟩).run
          (constStore ⟨none, .array []⟩) ()).response =
        some ⟨400, .object [("message", .string "Missing fields")]⟩ ∧
      ((postTestdrive ⟨[("user_id", JSValue.ofNat 1), ("car_id", JSValue.ofNat 2)], []⟩).run
          (constStore ⟨none, .array []⟩) ()).calls = [] :=
  ⟨by decide,
    (postTestdrive_missing_fields (constStore ⟨none, .array []⟩) ()
      ⟨[("user_id", JSValue.ofNat 1), ("car_id", JSValue.ofNat 2)], []⟩
      (Or.inr (Or.inr (by decide)))).1,
    (postTestdrive_missing_fields (constStore ⟨none, .array []⟩) ()
      ⟨[("user_id", JSValue.ofNat 1), ("car_id", JSValue.ofNat 2)], []⟩
      (Or.inr (Or.inr (by decide)))).2.1⟩

/-- C2: a `POST /api/like` request whose body lacks `user_id` or lacks
`car_id` is answered with status 400 and `{message: "Missing data"}`, whatever
the other field holds and whatever the store would have answered; the store
is not even asked. -/
theorem postApiLike_missing_data {σ : Type} (exec : σ → Call → StoreReply × σ)
    (s : σ) (req : Request)
    (h : req.body.lookup "user_id" = none ∨ req.body.lookup "car_id" = none) :
    ((postApiLike req).run exec s).response =
        some ⟨400, .object [("message", .string "Missing data")]⟩ ∧
      ((postApiLike req).run exec s).calls = [] := by
  rcases h with h | h <;>
    simp [postApiLike, getField, h, JSValue.truthy, statusJson, messageBody,
      Handler.run]

/-- C2 at a body that holds only `car_id`, against a store that would have
reported success. -/
theorem postApiLike_missing_data_witness :
    List.lookup "user_id" [("car_id", JSValue.ofNat 7)] = none ∧
      ((postApiLike ⟨[("car_id", JSValue.ofNat 7)], []⟩).run
          (constStore ⟨none, .array []⟩) ()).response =
        some ⟨400, .object [("message", .string "Missing data")]⟩ :=
  ⟨by decide,
    (postApiLike_missing_data (constStore ⟨none, .array []⟩) ()
      ⟨[("car_id", JSValue.ofNat 7)], []⟩ (Or.inl (by decide))).1⟩

/-! ## Mapping store outcomes to responses -/

/-- C3: for a `POST /testdrive` request that passes validation and any store,
the reply to the one store call decides the response. No error: 200 with
`{message: "Test drive booked successfully!"}`. An error whose `sqlState` is
the string `45000`: 400 with the duplicate-booking message. Any other error:
500 with `{message: err.message}`. Exactly one of the three cases applies to
each reply. -/
theorem postTestdrive_store_outcomes {σ : Type} (exec : σ → Call → StoreReply × σ)
    (s : σ) (req : Request)
    (hu : (getField req.body "user_id").truthy = true)
    (hc : (getField req.body "car_id").truthy = true)
    (hd : (getField req.body "date").truthy = true) :
    ((exec s ⟨testdriveSql, some [getField req.body "user_id",
          getField req.body "car_id", getField req.body "date"]⟩).1.err = none →
        ((postTestdrive req).run exec s).response =
          some ⟨200, .object [("message", .string "Test drive booked successfully!")]⟩) ∧
    (∀ e, (exec s ⟨testdriveSql, some [getField req.body "user_id",
          getField req.body "car_id", getField req.body "date"]⟩).1.err = some e →
        e.sqlState = .string "45000" →
        ((postTestdrive req).run exec s).response =
          some ⟨400, .object
            [("message", .string "You already booked this car on this date.")]⟩) ∧
    (∀ e, (exec s ⟨testdriveSql, some [getField req.body "user_id",
          getField req.body "car_id", getField req.body "date"]⟩).1.err = some e →
        e.sqlState ≠ .string "45000" →
        ((postTestdrive req).run exec s).response =
          some ⟨500, .object [("message", e.message)]⟩) ∧
    (∀ reply : StoreReply,
      (reply.err = none ∨ (∃ e, reply.err = some e ∧ e.sqlState = .string "45000") ∨
        (∃ e, reply.err = some e ∧ e.sqlState ≠ .string "45000")) ∧
      ¬ (reply.err = none ∧ ∃ e, reply.err = some e ∧ e.sqlState = .string "45000") ∧
      ¬ (reply.err = none ∧ ∃ e, reply.err = some e ∧ e.sqlState ≠ .string "45000") ∧
      ¬ ((∃ e, reply.err = some e ∧ e.sqlState = .string "45000") ∧
        ∃ e, reply.err = some e ∧ e.sqlState ≠ .string "45000")) := by
  refine ⟨?_, ?_, ?_, ?_⟩
  · intro h
    simp [postTestdrive, hu, hc, hd, Handler.run, h, json, messageBody]
  · intro e h he
    have h45 : e.sqlState.strictEqString "45000" = true :=
      (strictEqString_iff _ _).2 he
    simp [postTestdrive, hu, hc, hd, Handler.run, h, h45, statusJson, messageBody]
  · intro e h he
    have h45 : e.sqlState.strictEqString "45000" = false := by
      cases hb : e.sqlState.strictEqString "45000"
      · rfl
      · exact absurd ((strictEqString_iff _ _).1 hb) he
    simp [postTestdrive, hu, hc, hd, Handler.run, h, h45, statusJson, messageBody]
  · intro reply
    refine ⟨?_, ?_, ?_, ?_⟩
    · cases h : reply.err with
      | none => exact Or.inl rfl
      | some e =>
        by_cases he : e.sqlState = .string "45000"
        · exact Or.inr (Or.inl ⟨e, rfl, he⟩)
        · exact Or.inr (Or.inr ⟨e, rfl, he⟩)
    · rintro ⟨h, e, h2, -⟩
      simp [h] at h2
    · rintro ⟨h, e, h2, -⟩
      simp [h] at h2
    · rintro ⟨⟨e, h1, he⟩, e2, h2, he2⟩
      rw [h1] at h2
      cases h2
      exact he2 he

/-- C3 at a valid booking request against a store that fails with a lost
connection (an error without the `45000` state): the response is 500 with the
store's error text. -/
theorem postTestdrive_store_outcomes_witness :
    (getField [("user_id", JSValue.ofNat 1), ("car_id", JSValue.ofNat 2),
        ("date", JSValue.string "2025-01-01")] "date").truthy = true ∧
      ((postTestdrive ⟨[("user_id", JSValue.ofNat 1), ("car_id", JSValue.ofNat 2),
            ("date", JSValue.string "2025-01-01")], []⟩).run
          (constStore ⟨some ⟨.string "Connection lost", .undefined⟩, .undefined⟩) ()).response =
        some ⟨500, .object [("message", .string "Connection lost")]⟩ :=
  ⟨by decide,
    (postTestdrive_store_outcomes
      (constStore ⟨some ⟨.string "Connection lost", .undefined⟩, .undefined⟩) ()
      ⟨[("user_id", JSValue.ofNat 1), ("car_id", JSValue.ofNat 2),
        ("date", JSValue.string "2025-01-01")], []⟩
      (by decide) (by decide) (by decide)).2.2.1
      ⟨.string "Connection lost", .undefined⟩ rfl (by decide)⟩

/-- C9: `GET /cars` and `GET /dealer/logs` hand the store's rows through.
Each makes one call with its fixed statement; when the store reports no error
the response is 200 and its body is the store's `results` itself, so the same
rows in the same order (any ordering the store delivered its rows in holds of
the body); when the store reports an error the response is 500 with
`{error: err.message}`. -/
theorem list_handlers_pass_through {σ : Type} (exec : σ → Call → StoreReply × σ)
    (s : σ) (req : Request) :
    (((getCars req).run exec s).calls = [⟨carsSql, none⟩] ∧
      ((exec s ⟨carsSql, none⟩).1.err = none →
        ((getCars req).run exec s).response =
          some ⟨200, (exec s ⟨carsSql, none⟩).1.results⟩) ∧
      (∀ e, (exec s ⟨carsSql, none⟩).1.err = some e →
        ((getCars req).run exec s).response =
          some ⟨500, .object [("error", e.message)]⟩)) ∧
    (((getDealerLogs req).run exec s).calls = [⟨dealerLogsSql, none⟩] ∧
      ((exec s ⟨dealerLogsSql, none⟩).1.err = none →
        ((getDealerLogs req).run exec s).response =
          some ⟨200, (exec s ⟨dealerLogsSql, none⟩).1.results⟩) ∧
      (∀ e, (exec s ⟨dealerLogsSql, none⟩).1.err = some e →
        ((getDealerLogs req).run exec s).response =
          some ⟨500, .object [("error", e.message)]⟩) ∧
      (∀ (R : JSValue → JSValue → Prop) (rows : List JSValue),
        (exec s ⟨dealerLogsSql, none⟩).1.err = none →
        (exec s ⟨dealerLogsSql, none⟩).1.results = .array rows →
        rows.Pairwise R →
        ∃ out, ((getDealerLogs req).run exec s).response = some ⟨200, .array out⟩ ∧
          out = rows ∧ out.Pairwise R)) := by
  refine ⟨⟨?_, ?_, ?_⟩, ⟨?_, ?_, ?_, ?_⟩⟩
  · simp [getCars, Handler.run]
    cases (exec s ⟨carsSql, none⟩).1.err <;> simp [json, statusJson, Handler.run]
  · intro h
    simp [getCars, Handler.run, h, json]
  · intro e h
    simp [getCars, Handler.run, h, statusJson, errorBody]
  · simp [getDealerLogs, Handler.run]
    cases (exec s ⟨dealerLogsSql, none⟩).1.err <;> simp [json, statusJson, Handler.run]
  · intro h
    simp [getDealerLogs, Handler.run, h, json]
  · intro e h
    simp [getDealerLogs, Handler.run, h, statusJson, errorBody]
  · intro R rows h hr hp
    exact ⟨rows, by simp [getDealerLogs, Handler.run, h, hr, json], rfl, hp⟩

/-! ## Which calls each handler makes -/

theorem resetLikesSql_ne_likeSql : resetLikesSql ≠ likeSql := by decide

theorem testdriveSql_ne_likeSql : testdriveSql ≠ likeSql := by decide

theorem testdriveSql_ne_resetLikesSql : testdriveSql ≠ resetLikesSql := by decide

theorem getCars_calls {σ : Type} (exec : σ → Call → StoreReply × σ) (s : σ)
    (req : Request) : ((getCars req).run exec s).calls = [⟨carsSql, none⟩] := by
  simp [getCars, Handler.run]
  cases (exec s ⟨carsSql, none⟩).1.err <;> simp [json, statusJson, Handler.run]

theorem getDealerLogs_calls {σ : Type} (exec : σ → Call → StoreReply × σ) (s : σ)
    (req : Request) :
    ((getDealerLogs req).run exec s).calls = [⟨dealerLogsSql, none⟩] := by
  simp [getDealerLogs, Handler.run]
  cases (exec s ⟨dealerLogsSql, none⟩).1.err <;> simp [json, statusJson, Handler.run]

theorem deleteApiResetLikes_calls {σ : Type} (exec : σ → Call → StoreReply × σ)
    (s : σ) (req : Request) :
    ((deleteApiResetLikes req).run exec s).calls =
      [⟨resetLikesSql, some [getField req.body "user_id"]⟩] := by
  simp [deleteApiResetLikes, Handler.run]
  cases (exec s ⟨resetLikesSql, some [getField req.body "user_id"]⟩).1.err <;>
    simp [json, statusJson, Handler.run]

theorem getLiked_calls {σ : Type} (exec : σ → Call → StoreReply × σ) (s : σ)
    (req : Request) :
    ((getLiked req).run exec s).calls =
      [⟨likedSql, some [getParam req.params "userId"]⟩] := by
  simp [getLiked, Handler.run]
  cases (exec s ⟨likedSql, some [getParam req.params "userId"]⟩).1.err with
  | some e => simp [statusJson, Handler.run]
  | none =>
    cases (exec s ⟨likedSql, some [getParam req.params "userId"]⟩).1.results.index0 <;>
      simp [json, Handler.run]

theorem postApiLike_calls {σ : Type} (exec : σ → Call → StoreReply × σ) (s : σ)
    (req : Request) :
    ((postApiLike req).run exec s).calls =
      if (getField req.body "user_id").truthy && (getField req.body "car_id").truthy then
        [⟨likeSql, some [getField req.body "user_id", getField req.body "car_id"]⟩]
      else [] := by
  cases hu : (getField req.body "user_id").truthy <;>
    cases hc : (getField req.body "car_id").truthy <;>
    simp [postApiLike, hu, hc, Handler.run, statusJson]
  cases (exec s ⟨likeSql, some [getField req.body "user_id",
      getField req.body "car_id"]⟩).1.err <;>
    simp [json, statusJson, Handler.run]

theorem postTestdrive_calls {σ : Type} (exec : σ → Call → StoreReply × σ) (s : σ)
    (req : Request) :
    ((postTestdrive req).run exec s).calls =
      if (getField req.body "user_id").truthy && (getField req.body "car_id").truthy &&
          (getField req.body "date").truthy then
        [⟨testdriveSql, some [getField req.body "user_id", getField req.body "car_id",
          getField req.body "date"]⟩]
      else [] := by
  cases hu : (getField req.body "user_id").truthy <;>
    cases hc : (getField req.body "car_id").truthy <;>
    cases hd : (getField req.body "date").truthy <;>
    simp [postTestdrive, hu, hc, hd, Handler.run, statusJson]
  cases (exec s ⟨testdriveSql, some [getField req.body "user_id",
      getField req.body "car_id", getField req.body "date"]⟩).1.err with
  | none => simp [json, Handler.run]
  | some e =>
    cases h45 : e.sqlState.strictEqString "45000" <;>
      simp [statusJson, Handler.run, h45]

theorem postApiLike_rejects {σ : Type} (exec : σ → Call → StoreReply × σ) (s : σ)
    (req : Request)
    (h : ((getField req.body "user_id").truthy &&
      (getField req.body "car_id").truthy) = false) :
    ((postApiLike req).run exec s).response =
      some ⟨400, .object [("message", .string "Missing data")]⟩ := by
  cases hu : (getField req.body "user_id").truthy <;>
    cases hc : (getField req.body "car_id").truthy <;>
    simp [hu, hc] at h <;>
    simp [postApiLike, hu, hc, Handler.run, statusJson, messageBody]

theorem postTestdrive_rejects {σ : Type} (exec : σ → Call → StoreReply × σ) (s : σ)
    (req : Request)
    (h : ((getField req.body "user_id").truthy && (getField req.body "car_id").truthy &&
      (getField req.body "date").truthy) = false) :
    ((postTestdrive req).run exec s).response =
      some ⟨400, .object [("message", .string "Missing fields")]⟩ := by
  cases hu : (getField req.body "user_id").truthy <;>
    cases hc : (getField req.body "car_id").truthy <;>
    cases hd : (getField req.body "date").truthy <;>
    simp [hu, hc, hd] at h <;>
    simp [postTestdrive, hu, hc, hd, Handler.run, statusJson, messageBody]

/-- The values the validation guards must turn away although the field is
present: `0`, `""`, `null`, `false` and `NaN`. -/
def falsyValues : List JSValue :=
  [.number (.finite false 0 0), .string "", .null, .bool false, .number .nan]

theorem truthy_eq_false_iff (v : JSValue) :
    v.truthy = false ↔
      (v = .undefined ∨ v = .null ∨ v = .bool false ∨ v = .number .nan ∨
        (∃ neg e, v = .number (.finite neg 0 e)) ∨ v = .string "") := by
  cases v with
  | undefined => simp [JSValue.truthy]
  | null => simp [JSValue.truthy]
  | bool b => cases b <;> simp [JSValue.truthy]
  | number n =>
    cases n with
    | nan => simp [JSValue.truthy, JSNumber.truthy]
    | infinite neg => simp [JSValue.truthy, JSNumber.truthy]
    | finite neg m e => simp [JSValue.truthy, JSNumber.truthy]
  | string t => simp [JSValue.truthy]
  | surrogate u => simp [JSValue.truthy]
  | array items => simp [JSValue.truthy]
  | object fields => simp [JSValue.truthy]

/-- C10: validation in `POST /api/like` and `POST /testdrive` turns away
exactly the falsy values and passes the fields on untouched.

* Truthiness is JavaScript's: a value is falsy exactly when it is `undefined`,
  `null`, `false`, `NaN`, a zero or the empty string.
* Accepting side: when the body holds a truthy value under every required key,
  the store is called once with those very values, in the order
  `(user_id, car_id)`, respectively `(user_id, car_id, date)`.
* Rejecting side: when some required key is absent or holds a falsy value, the
  store is not called and the response is the 400 of the route; in particular
  for each of `0`, `""`, `null`, `false` and `NaN`.
* Hence the store is contacted if and only if every required key is present
  with a truthy value. -/
theorem validation_exactly_truthy {σ : Type} (exec : σ → Call → StoreReply × σ)
    (s : σ) (req : Request) :
    (∀ v : JSValue, v.truthy = false ↔
      (v = .undefined ∨ v = .null ∨ v = .bool false ∨ v = .number .nan ∨
        (∃ neg e, v = .number (.finite neg 0 e)) ∨ v = .string "")) ∧
    ((∀ u c, req.body.lookup "user_id" = some u → req.body.lookup "car_id" = some c →
        u.truthy = true → c.truthy = true →
        ((postApiLike req).run exec s).calls = [⟨likeSql, some [u, c]⟩]) ∧
      (∀ k ∈ ["user_id", "car_id"],
        (req.body.lookup k = none ∨ ∃ v, req.body.lookup k = some v ∧ v.truthy = false) →
        ((postApiLike req).run exec s).calls = [] ∧
        ((postApiLike req).run exec s).response =
          some ⟨400, .object [("message", .string "Missing data")]⟩) ∧
      (((postApiLike req).run exec s).calls ≠ [] ↔
        ∃ u c, req.body.lookup "user_id" = some u ∧ req.body.lookup "car_id" = some c ∧
          u.truthy = true ∧ c.truthy = true)) ∧
    ((∀ u c d, req.body.lookup "user_id" = some u → req.body.lookup "car_id" = some c →
        req.body.lookup "date" = some d →
        u.truthy = true → c.truthy = true → d.truthy = true →
        ((postTestdrive req).run exec s).calls = [⟨testdriveSql, some [u, c, d]⟩]) ∧
      (∀ k ∈ ["user_id", "car_id", "date"],
        (req.body.lookup k = none ∨ ∃ v, req.body.lookup k = some v ∧ v.truthy = false) →
        ((postTestdrive req).run exec s).calls = [] ∧
        ((postTestdrive req).run exec s).response =
          some ⟨400, .object [("message", .string "Missing fields")]⟩) ∧
      (((postTestdrive req).run exec s).calls ≠ [] ↔
        ∃ u c d, req.body.lookup "user_id" = some u ∧ req.body.lookup "car_id" = some c ∧
          req.body.lookup "date" = some d ∧
          u.truthy = true ∧ c.truthy = true ∧ d.truthy = true)) ∧
    (∀ v ∈ falsyValues, v.truthy = false ∧
      (∀ k ∈ ["user_id", "car_id"], req.body.lookup k = some v →
        ((postApiLike req).run exec s).calls = [] ∧
        ((postApiLike req).run exec s).response =
          some ⟨400, .object [("message", .string "Missing data")]⟩) ∧
      (∀ k ∈ ["user_id", "car_id", "date"], req.body.lookup k = some v →
        ((postTestdrive req).run exec s).calls = [] ∧
        ((postTestdrive req).run exec s).response =
          some ⟨400, .object [("message", .string "Missing fields")]⟩)) := by
  have hl := postApiLike_calls exec s req
  have ht := postTestdrive_calls exec s req
  have rl := postApiLike_rejects exec s req
  have rt := postTestdrive_rejects exec s req
  -- a required key that is absent or falsy reads as a falsy value
  have hbad : ∀ k, (req.body.lookup k = none ∨
      ∃ v, req.body.lookup k = some v ∧ v.truthy = false) →
      (getField req.body k).truthy = false := by
    intro k h
    rcases h with h | ⟨v, h, hv⟩
    · rw [getField_of_lookup_none _ _ h]; rfl
    · rw [getField_of_lookup_some _ _ _ h]; exact hv
  -- a key read as truthy is present with that truthy value
  have hgood : ∀ k, (getField req.body k).truthy = true →
      ∃ v, req.body.lookup k = some v ∧ v.truthy = true := by
    intro k h
    cases hlook : req.body.lookup k with
    | none =>
      rw [getField_of_lookup_none _ _ hlook] at h
      exact absurd h (by simp [JSValue.truthy])
    | some v =>
      rw [getField_of_lookup_some _ _ _ hlook] at h
      exact ⟨v, rfl, h⟩
  have likeReject : ∀ k ∈ ["user_id", "car_id"],
      (req.body.lookup k = none ∨ ∃ v, req.body.lookup k = some v ∧ v.truthy = false) →
      ((postApiLike req).run exec s).calls = [] ∧
      ((postApiLike req).run exec s).response =
        some ⟨400, .object [("message", .string "Missing data")]⟩ := by
    intro k hk h
    have hg := hbad k h
    have hboth : ((getField req.body "user_id").truthy &&
        (getField req.body "car_id").truthy) = false := by
      simp at hk
      rcases hk with rfl | rfl <;> simp [hg]
    exact ⟨by rw [hl, hboth]; simp, rl hboth⟩
  have driveReject : ∀ k ∈ ["user_id", "car_id", "date"],
      (req.body.lookup k = none ∨ ∃ v, req.body.lookup k = some v ∧ v.truthy = false) →
      ((postTestdrive req).run exec s).calls = [] ∧
      ((postTestdrive req).run exec s).response =
        some ⟨400, .object [("message", .string "Missing fields")]⟩ := by
    intro k hk h
    have hg := hbad k h
    have hall : ((getField req.body "user_id").truthy &&
        (getField req.body "car_id").truthy && (getField req.body "date").truthy) =
          false := by
      simp at hk
      rcases hk with rfl | rfl | rfl <;> simp [hg]
    exact ⟨by rw [ht, hall]; simp, rt hall⟩
  have likeAccept : ∀ u c, req.body.lookup "user_id" = some u →
      req.body.lookup "car_id" = some c → u.truthy = true → c.truthy = true →
      ((postApiLike req).run exec s).calls = [⟨likeSql, some [u, c]⟩] := by
    intro u c h1 h2 hu hc
    rw [hl, getField_of_lookup_some _ _ _ h1, getField_of_lookup_some _ _ _ h2, hu, hc]
    simp
  have driveAccept : ∀ u c d, req.body.lookup "user_id" = some u →
      req.body.lookup "car_id" = some c → req.body.lookup "date" = some d →
      u.truthy = true → c.truthy = true → d.truthy = true →
      ((postTestdrive req).run exec s).calls = [⟨testdriveSql, some [u, c, d]⟩] := by
    intro u c d h1 h2 h3 hu hc hd
    rw [ht, getField_of_lookup_some _ _ _ h1, getField_of_lookup_some _ _ _ h2,
      getField_of_lookup_some _ _ _ h3, hu, hc, hd]
    simp
  refine ⟨truthy_eq_false_iff, ⟨likeAccept, likeReject, ?_⟩,
    ⟨driveAccept, driveReject, ?_⟩, ?_⟩
  · constructor
    · intro hne
      rw [hl] at hne
      cases hu : (getField req.body "user_id").truthy <;>
        cases hc : (getField req.body "car_id").truthy <;> simp [hu, hc] at hne
      obtain ⟨u, h1, hu2⟩ := hgood _ hu
      obtain ⟨c, h2, hc2⟩ := hgood _ hc
      exact ⟨u, c, h1, h2, hu2, hc2⟩
    · rintro ⟨u, c, h1, h2, hu, hc⟩
      rw [likeAccept u c h1 h2 hu hc]
      simp
  · constructor
    · intro hne
      rw [ht] at hne
      cases hu : (getField req.body "user_id").truthy <;>
        cases hc : (getField req.body "car_id").truthy <;>
        cases hd : (getField req.body "date").truthy <;> simp [hu, hc, hd] at hne
      obtain ⟨u, h1, hu2⟩ := hgood _ hu
      obtain ⟨c, h2, hc2⟩ := hgood _ hc
      obtain ⟨d, h3, hd2⟩ := hgood _ hd
      exact ⟨u, c, d, h1, h2, h3, hu2, hc2, hd2⟩
    · rintro ⟨u, c, d, h1, h2, h3, hu, hc, hd⟩
      rw [driveAccept u c d h1 h2 h3 hu hc hd]
      simp
  · intro v hv
    have hfalse : v.truthy = false := by
      simp [falsyValues] at hv
      rcases hv with rfl | rfl | rfl | rfl | rfl <;>
        simp [JSValue.truthy, JSNumber.truthy]
    exact ⟨hfalse, fun k hk hlook => likeReject k hk (Or.inr ⟨v, hlook, hfalse⟩),
      fun k hk hlook => driveReject k hk (Or.inr ⟨v, hlook, hfalse⟩)⟩

/-- C10 on concrete requests: a body holding `user_id = 1`, `car_id = 2` and
`date = "2025-01-01"` reaches the store on both routes with exactly these
values in this order, `true` is not falsy, and the same body with `car_id = 0`
is turned away by both routes without a store call. -/
theorem validation_exactly_truthy_witness :
    ((postApiLike ⟨[("user_id", JSValue.ofNat 1), ("car_id", JSValue.ofNat 2),
          ("date", .string "2025-01-01")], []⟩).run
        (constStore ⟨none, .array []⟩) ()).calls =
      [⟨likeSql, some [JSValue.ofNat 1, JSValue.ofNat 2]⟩] ∧
    ((postTestdrive ⟨[("user_id", JSValue.ofNat 1), ("car_id", JSValue.ofNat 2),
          ("date", .string "2025-01-01")], []⟩).run
        (constStore ⟨none, .array []⟩) ()).calls =
      [⟨testdriveSql, some [JSValue.ofNat 1, JSValue.ofNat 2, .string "2025-01-01"]⟩] ∧
    (JSValue.bool true).truthy ≠ false ∧
    ((postApiLike ⟨[("user_id", JSValue.ofNat 1), ("car_id", JSValue.ofNat 0),
          ("date", .string "2025-01-01")], []⟩).run
        (constStore ⟨none, .array []⟩) ()).calls = [] ∧
    ((postTestdrive ⟨[("user_id", JSValue.ofNat 1), ("car_id", JSValue.ofNat 0),
          ("date", .string "2025-01-01")], []⟩).run
        (constStore ⟨none, .array []⟩) ()).response =
      some ⟨400, .object [("message", .string "Missing fields")]⟩ :=
  ⟨(validation_exactly_truthy (constStore ⟨none, .array []⟩) ()
      ⟨[("user_id", JSValue.ofNat 1), ("car_id", JSValue.ofNat 2),
        ("date", .string "2025-01-01")], []⟩).2.1.1
      _ _ (by decide) (by decide) (by decide) (by decide),
    (validation_exactly_truthy (constStore ⟨none, .array []⟩) ()
      ⟨[("user_id", JSValue.ofNat 1), ("car_id", JSValue.ofNat 2),
        ("date", .string "2025-01-01")], []⟩).2.2.1.1
      _ _ _ (by decide) (by decide) (by decide) (by decide) (by decide) (by decide),
    fun h => by
      have := ((validation_exactly_truthy (constStore ⟨none, .array []⟩) ()
        ⟨[], []⟩).1 (.bool true)).1 h
      simp at this,
    ((validation_exactly_truthy (constStore ⟨none, .array []⟩) ()
      ⟨[("user_id", JSValue.ofNat 1), ("car_id", JSValue.ofNat 0),
        ("date", .string "2025-01-01")], []⟩).2.1.2.1
      "car_id" (by decide) (Or.inr ⟨JSValue.ofNat 0, by decide, by decide⟩)).1,
    ((validation_exactly_truthy (constStore ⟨none, .array []⟩) ()
      ⟨[("user_id", JSValue.ofNat 1), ("car_id", JSValue.ofNat 0),
        ("date", .string "2025-01-01")], []⟩).2.2.1.2.1
      "car_id" (by decide) (Or.inr ⟨JSValue.ofNat 0, by decide, by decide⟩)).2⟩

/-! ## One store call per request -/

/-- C8 as stated fails: a `POST /api/like` with an empty body is answered
without any call to the store. -/
theorem postApiLike_empty_body_no_call :
    ((Route.like.handler ⟨[], []⟩).run (constStore ⟨none, .array []⟩) ()).calls.length = 0 ∧
      ((Route.like.handler ⟨[], []⟩).run (constStore ⟨none, .array []⟩) ()).calls.length ≠ 1 := by
  constructor <;> decide

/-- C8 amended: no handler calls the store more than once, whatever the store
answers. `GET /cars`, `DELETE /api/resetLikes`, `GET /liked/:userId` and
`GET /dealer/logs` call it exactly once on every request. `POST /api/like` and
`POST /testdrive` call it exactly once when every required field is truthy and
not at all otherwise. -/
theorem store_calls_per_request {σ : Type} (exec : σ → Call → StoreReply × σ)
    (s : σ) (req : Request) :
    (∀ route : Route, ((route.handler req).run exec s).calls.length ≤ 1) ∧
    ((Route.cars.handler req).run exec s).calls.length = 1 ∧
    ((Route.resetLikes.handler req).run exec s).calls.length = 1 ∧
    ((Route.liked.handler req).run exec s).calls.length = 1 ∧
    ((Route.dealerLogs.handler req).run exec s).calls.length = 1 ∧
    ((Route.like.handler req).run exec s).calls.length =
      (if (getField req.body "user_id").truthy && (getField req.body "car_id").truthy
        then 1 else 0) ∧
    ((Route.testdrive.handler req).run exec s).calls.length =
      (if (getField req.body "user_id").truthy && (getField req.body "car_id").truthy &&
          (getField req.body "date").truthy
        then 1 else 0) := by
  have h1 : ((Route.cars.handler req).run exec s).calls.length = 1 := by
    simp [Route.handler, getCars_calls]
  have h2 : ((Route.resetLikes.handler req).run exec s).calls.length = 1 := by
    simp [Route.handler, deleteApiResetLikes_calls]
  have h3 : ((Route.liked.handler req).run exec s).calls.length = 1 := by
    simp [Route.handler, getLiked_calls]
  have h4 : ((Route.dealerLogs.handler req).run exec s).calls.length = 1 := by
    simp [Route.handler, getDealerLogs_calls]
  have h5 : ((Route.like.handler req).run exec s).calls.length =
      (if (getField req.body "user_id").truthy && (getField req.body "car_id").truthy
        then 1 else 0) := by
    simp only [Route.handler, postApiLike_calls]
    split <;> simp
  have h6 : ((Route.testdrive.handler req).run exec s).calls.length =
      (if (getField req.body "user_id").truthy && (getField req.body "car_id").truthy &&
          (getField req.body "date").truthy
        then 1 else 0) := by
    simp only [Route.handler, postTestdrive_calls]
    split <;> simp
  refine ⟨?_, h1, h2, h3, h4, h5, h6⟩
  intro route
  cases route
  · exact le_of_eq h1
  · rw [h5]; split <;> simp
  · exact le_of_eq h2
  · rw [h6]; split <;> simp
  · exact le_of_eq h3
  · exact le_of_eq h4

/-! ## Resetting likes -/

/-- C6: `DELETE /api/resetLikes` validates nothing. For every body the one
store call is the delete with the body's `user_id` (the value stored under
the key, `undefined` when the body has none); no error from the store gives 200 with
`{message: "Likes reset successfully!"}`, any error gives 500 with
`{message: "DB error"}`. Against the model store the answer is always the 200,
the rows of every other user stay as they were, and for a user without likes
the table is unchanged. -/
theorem deleteApiResetLikes_contract {σ : Type} (exec : σ → Call → StoreReply × σ)
    (s : σ) (req : Request) :
    ((deleteApiResetLikes req).run exec s).calls =
        [⟨resetLikesSql, some [getField req.body "user_id"]⟩] ∧
    (req.body.lookup "user_id" = none →
      ((deleteApiResetLikes req).run exec s).calls =
        [⟨resetLikesSql, some [.undefined]⟩]) ∧
    (∀ v, req.body.lookup "user_id" = some v →
      ((deleteApiResetLikes req).run exec s).calls =
        [⟨resetLikesSql, some [v]⟩]) ∧
    ((exec s ⟨resetLikesSql, some [getField req.body "user_id"]⟩).1.err = none →
      ((deleteApiResetLikes req).run exec s).response =
        some ⟨200, .object [("message", .string "Likes reset successfully!")]⟩) ∧
    (∀ e, (exec s ⟨resetLikesSql, some [getField req.body "user_id"]⟩).1.err = some e →
      ((deleteApiResetLikes req).run exec s).response =
        some ⟨500, .object [("message", .string "DB error")]⟩) ∧
    (∀ db : Db,
      ((deleteApiResetLikes req).run Db.exec db).response =
        some ⟨200, .object [("message", .string "Likes reset successfully!")]⟩ ∧
      (((deleteApiResetLikes req).run Db.exec db).store.likes.filter
          fun r => !decide (r.user_id = getField req.body "user_id")) =
        (db.likes.filter fun r => !decide (r.user_id = getField req.body "user_id")) ∧
      ((∀ r ∈ db.likes, r.user_id ≠ getField req.body "user_id") →
        ((deleteApiResetLikes req).run Db.exec db).store = db)) := by
  refine ⟨deleteApiResetLikes_calls exec s req, ?_, ?_, ?_, ?_, ?_⟩
  · intro h
    rw [deleteApiResetLikes_calls, getField_of_lookup_none _ _ h]
  · intro v h
    rw [deleteApiResetLikes_calls, getField_of_lookup_some _ _ _ h]
  · intro h
    simp [deleteApiResetLikes, Handler.run, h, json, messageBody]
  · intro e h
    simp [deleteApiResetLikes, Handler.run, h, statusJson, messageBody]
  · intro db
    have hexec : Db.exec db ⟨resetLikesSql, some [getField req.body "user_id"]⟩ =
        (⟨none, .array []⟩, db.deleteLikes (getField req.body "user_id")) := by
      simp [Db.exec, resetLikesSql_ne_likeSql]
    refine ⟨?_, ?_, ?_⟩
    · simp [deleteApiResetLikes, Handler.run, hexec, json, messageBody]
    · simp [deleteApiResetLikes, Handler.run, hexec, json, Db.deleteLikes,
        List.filter_filter]
    · intro hnone
      have hkeep : (db.likes.filter fun r =>
          !decide (r.user_id = getField req.body "user_id")) = db.likes := by
        apply List.filter_eq_self.2
        intro r hr
        simpa using hnone r hr
      simp [deleteApiResetLikes, Handler.run, hexec, json, Db.deleteLikes, hkeep]

/-! ## Liked cars -/

/-- C7 as stated fails: when the store reports no error and an empty list of
result sets, the handler answers 200 with `undefined`; there is no first
result set for the body to equal. -/
theorem getLiked_empty_result_sets :
    ((getLiked ⟨[], [("userId", "5")]⟩).run (constStore ⟨none, .array []⟩) ()).response =
        some ⟨200, .undefined⟩ ∧
      ¬ ∃ first, ([] : List JSValue).head? = some first ∧
        ((getLiked ⟨[], [("userId", "5")]⟩).run (constStore ⟨none, .array []⟩) ()).response =
          some ⟨200, first⟩ := by
  constructor
  · decide
  · rintro ⟨first, h, -⟩
    simp at h

/-- C7 amended: on a `GET /liked/:userId` request for which the store reports
no error and at least one result set, the response is 200 with body equal to
the first result set, `results[0]`; in particular an empty first result set
(a user with zero likes) gives the empty array. When the list of result sets
is empty the response is still 200 but carries `undefined`. -/
theorem getLiked_first_result_set {σ : Type} (exec : σ → Call → StoreReply × σ)
    (s : σ) (req : Request)
    (herr : (exec s ⟨likedSql, some [getParam req.params "userId"]⟩).1.err = none) :
    (∀ first rest,
      (exec s ⟨likedSql, some [getParam req.params "userId"]⟩).1.results =
          .array (first :: rest) →
        ((getLiked req).run exec s).response = some ⟨200, first⟩) ∧
    (∀ rest,
      (exec s ⟨likedSql, some [getParam req.params "userId"]⟩).1.results =
          .array (.array [] :: rest) →
        ((getLiked req).run exec s).response = some ⟨200, .array []⟩) ∧
    ((exec s ⟨likedSql, some [getParam req.params "userId"]⟩).1.results = .array [] →
        ((getLiked req).run exec s).response = some ⟨200, .undefined⟩) := by
  refine ⟨?_, ?_, ?_⟩
  · intro first rest h
    simp [getLiked, Handler.run, herr, h, JSValue.index0, json]
  · intro rest h
    simp [getLiked, Handler.run, herr, h, JSValue.index0, json]
  · intro h
    simp [getLiked, Handler.run, herr, h, JSValue.index0, json]

/-- C7 amended, at a store that answers the procedure call with an empty row
set followed by its status packet: the body is the empty array. -/
theorem getLiked_first_result_set_witness :
    (constStore ⟨none, .array [.array [], .object [("affectedRows", JSValue.ofNat 0)]]⟩ ()
        ⟨likedSql, some [getParam [("userId", "5")] "userId"]⟩).1.err = none ∧
      ((getLiked ⟨[], [("userId", "5")]⟩).run
          (constStore ⟨none, .array [.array [], .object [("affectedRows", JSValue.ofNat 0)]]⟩)
          ()).response = some ⟨200, .array []⟩ :=
  ⟨rfl,
    (getLiked_first_result_set
      (constStore ⟨none, .array [.array [], .object [("affectedRows", JSValue.ofNat 0)]]⟩)
      () ⟨[], [("userId", "5")]⟩ rfl).1 _ _ rfl⟩

/-! ## The model store under repeated requests -/

theorem upsertLike_keys (db : Db) (u c : JSValue) :
    (db.upsertLike u c).likes.map LikedCar.key =
      if (u, c) ∈ db.likes.map LikedCar.key then db.likes.map LikedCar.key
      else db.likes.map LikedCar.key ++ [(u, c)] := by
  by_cases h : (u, c) ∈ db.likes.map LikedCar.key
  · have hany : (db.likes.any fun r => decide (r.key = (u, c))) = true := by
      obtain ⟨r, hr, hk⟩ := List.mem_map.1 h
      exact List.any_eq_true.2 ⟨r, hr, by simp [hk]⟩
    rw [if_pos h]
    simp only [Db.upsertLike, hany, if_true, List.map_map]
    apply List.map_congr_left
    intro r _
    simp only [Function.comp_apply]
    split <;> rfl
  · have hany : (db.likes.any fun r => decide (r.key = (u, c))) = false := by
      rw [Bool.eq_false_iff]
      intro ht
      obtain ⟨r, hr, hk⟩ := List.any_eq_true.1 ht
      exact h (List.mem_map.2 ⟨r, hr, by simpa using hk⟩)
    rw [if_neg h]
    unfold Db.upsertLike
    rw [hany]
    simp [LikedCar.key]

theorem upsertLike_mem (db : Db) (u c : JSValue) :
    (u, c) ∈ (db.upsertLike u c).likes.map LikedCar.key := by
  rw [upsertLike_keys]
  split
  · assumption
  · simp

theorem upsertLike_others (db : Db) (u c : JSValue) :
    ((db.upsertLike u c).likes.filter fun r => !decide (r.key = (u, c))) =
      db.likes.filter fun r => !decide (r.key = (u, c)) := by
  unfold Db.upsertLike
  split
  · simp only [List.filter_map]
    have hmap : ∀ l : List LikedCar,
        List.map (fun r => if r.key = (u, c) then { r with liked_at := db.now } else r)
            (List.filter ((fun r => !decide (r.key = (u, c))) ∘
              fun r => if r.key = (u, c) then { r with liked_at := db.now } else r) l) =
          List.filter (fun r => !decide (r.key = (u, c))) l := by
      intro l
      induction l with
      | nil => rfl
      | cons r rs ih =>
        by_cases hk : r.key = (u, c)
        · have hk2 : ({ r with liked_at := db.now } : LikedCar).key = (u, c) := hk
          simp [List.filter_cons, hk, hk2, ih]
        · simp [List.filter_cons, hk, ih]
    exact hmap db.likes
  · simp [List.filter_append, LikedCar.key]

theorem one_row_of_unique_key (l : List LikedCar) (k : JSValue × JSValue)
    (hn : (l.map LikedCar.key).Nodup) (hm : k ∈ l.map LikedCar.key) :
    (l.filter fun r => decide (r.key = k)).length = 1 := by
  induction l with
  | nil => simp at hm
  | cons r rs ih =>
    rw [List.map_cons, List.nodup_cons] at hn
    by_cases hk : r.key = k
    · have hnil : (rs.filter fun r => decide (r.key = k)) = [] := by
        apply List.filter_eq_nil_iff.2
        intro x hx hxk
        exact hn.1 (List.mem_map.2 ⟨x, hx, by rw [hk]; simpa using hxk⟩)
      simp [List.filter_cons, hk, hnil]
    · have hm2 : k ∈ rs.map LikedCar.key := by
        rw [List.map_cons, List.mem_cons] at hm
        rcases hm with h | h
        · exact absurd h.symm hk
        · exact h
      simp [List.filter_cons, hk, ih hn.2 hm2]

theorem exec_like (db : Db) (u c : JSValue) :
    Db.exec db ⟨likeSql, some [u, c]⟩ = (⟨none, .array []⟩, db.upsertLike u c) := by
  simp [Db.exec]

theorem exec_testdrive (db : Db) (u c d : JSValue) :
    Db.exec db ⟨testdriveSql, some [u, c, d]⟩ = db.bookTestDrive u c d := by
  simp [Db.exec, testdriveSql_ne_likeSql, testdriveSql_ne_resetLikesSql]

theorem postApiLike_on_model (db : Db) (req : Request)
    (hu : (getField req.body "user_id").truthy = true)
    (hc : (getField req.body "car_id").truthy = true) :
    ((postApiLike req).run Db.exec db).response =
        some ⟨200, .object [("message", .string "Car liked!")]⟩ ∧
      ((postApiLike req).run Db.exec db).store =
        db.upsertLike (getField req.body "user_id") (getField req.body "car_id") := by
  simp [postApiLike, hu, hc, Handler.run, exec_like, json, messageBody]

/-- C5: against the model store with its unique key `(user_id, car_id)`, from
any state that respects the key, liking a valid pair twice answers 200 with
`{message: "Car liked!"}` both times and leaves exactly one row for the pair:
the rows after the second like have the same keys in the same order as after
the first, every row of another pair is identical, and the key stays unique. -/
theorem like_twice_one_row (db : Db) (req : Request)
    (hu : (getField req.body "user_id").truthy = true)
    (hc : (getField req.body "car_id").truthy = true)
    (hkey : (db.likes.map LikedCar.key).Nodup) :
    ((postApiLike req).run Db.exec db).response =
        some ⟨200, .object [("message", .string "Car liked!")]⟩ ∧
    ((postApiLike req).run Db.exec ((postApiLike req).run Db.exec db).store).response =
        some ⟨200, .object [("message", .string "Car liked!")]⟩ ∧
    (((postApiLike req).run Db.exec
          ((postApiLike req).run Db.exec db).store).store.likes.filter fun r =>
        decide (r.key = (getField req.body "user_id", getField req.body "car_id"))).length
      = 1 ∧
    ((postApiLike req).run Db.exec
          ((postApiLike req).run Db.exec db).store).store.likes.map LikedCar.key =
      ((postApiLike req).run Db.exec db).store.likes.map LikedCar.key ∧
    (((postApiLike req).run Db.exec
          ((postApiLike req).run Db.exec db).store).store.likes.filter fun r =>
        !decide (r.key = (getField req.body "user_id", getField req.body "car_id"))) =
      (((postApiLike req).run Db.exec db).store.likes.filter fun r =>
        !decide (r.key = (getField req.body "user_id", getField req.body "car_id"))) ∧
    (((postApiLike req).run Db.exec
          ((postApiLike req).run Db.exec db).store).store.likes.map LikedCar.key).Nodup := by
  have h1 := postApiLike_on_model db req hu hc
  have h2 := postApiLike_on_model
    (db.upsertLike (getField req.body "user_id") (getField req.body "car_id")) req hu hc
  have hsame : ((db.upsertLike (getField req.body "user_id")
      (getField req.body "car_id")).upsertLike (getField req.body "user_id")
      (getField req.body "car_id")).likes.map LikedCar.key =
      (db.upsertLike (getField req.body "user_id")
        (getField req.body "car_id")).likes.map LikedCar.key := by
    rw [upsertLike_keys _ _ _, if_pos (upsertLike_mem db _ _)]
  have hnodup : ((db.upsertLike (getField req.body "user_id")
      (getField req.body "car_id")).likes.map LikedCar.key).Nodup := by
    rw [upsertLike_keys]
    split
    · exact hkey
    · rename_i hnot
      exact List.Nodup.append hkey (List.nodup_singleton _) (by simpa using hnot)
  rw [h1.2, h2.2]
  refine ⟨h1.1, ?_, ?_, hsame, upsertLike_others _ _ _, ?_⟩
  · exact h2.1
  · apply one_row_of_unique_key
    · rw [hsame]
      exact hnodup
    · rw [hsame]
      exact upsertLike_mem db _ _
  · rw [hsame]
    exact hnodup

/-- A store state with one like of another car and one booking, and the
bodies of the requests played against it. -/
def sampleDb : Db :=
  ⟨[⟨JSValue.ofNat 1, JSValue.ofNat 9, 0⟩],
    [⟨JSValue.ofNat 1, JSValue.ofNat 9, .string "2025-01-01"⟩], 5⟩

/-- A request of user 1 about car 2 on 2025-01-01. -/
def sampleRequest : Request :=
  ⟨[("user_id", JSValue.ofNat 1), ("car_id", JSValue.ofNat 2),
    ("date", .string "2025-01-01")], []⟩

/-- C5 on `sampleDb`: user 1 likes car 2 twice; the second answer is the 200
and one row holds the pair. -/
theorem like_twice_one_row_witness :
    (getField sampleRequest.body "user_id").truthy = true ∧
    (getField sampleRequest.body "car_id").truthy = true ∧
    (sampleDb.likes.map LikedCar.key).Nodup ∧
    ((postApiLike sampleRequest).run Db.exec
        ((postApiLike sampleRequest).run Db.exec sampleDb).store).response =
      some ⟨200, .object [("message", .string "Car liked!")]⟩ ∧
    (((postApiLike sampleRequest).run Db.exec
        ((postApiLike sampleRequest).run Db.exec sampleDb).store).store.likes.filter fun r =>
      decide (r.key = (getField sampleRequest.body "user_id",
        getField sampleRequest.body "car_id"))).length = 1 :=
  ⟨by decide, by decide, by decide,
    (like_twice_one_row sampleDb sampleRequest (by decide) (by decide) (by decide)).2.1,
    (like_twice_one_row sampleDb sampleRequest (by decide) (by decide) (by decide)).2.2.1⟩

theorem postTestdrive_on_model (db : Db) (req : Request)
    (hu : (getField req.body "user_id").truthy = true)
    (hc : (getField req.body "car_id").truthy = true)
    (hd : (getField req.body "date").truthy = true) :
    ((⟨getField req.body "user_id", getField req.body "car_id",
          getField req.body "date"⟩ : Booking) ∉ db.bookings →
      ((postTestdrive req).run Db.exec db).response =
          some ⟨200, .object [("message", .string "Test drive booked successfully!")]⟩ ∧
        ((postTestdrive req).run Db.exec db).store =
          { db with bookings := db.bookings ++ [⟨getField req.body "user_id",
            getField req.body "car_id", getField req.body "date"⟩] }) ∧
    ((⟨getField req.body "user_id", getField req.body "car_id",
          getField req.body "date"⟩ : Booking) ∈ db.bookings →
      ((postTestdrive req).run Db.exec db).response =
          some ⟨400, .object
            [("message", .string "You already booked this car on this date.")]⟩ ∧
        ((postTestdrive req).run Db.exec db).store = db) := by
  constructor
  · intro h
    simp [postTestdrive, hu, hc, hd, Handler.run, exec_testdrive, Db.bookTestDrive, h,
      json, messageBody]
  · intro h
    simp [postTestdrive, hu, hc, hd, Handler.run, exec_testdrive, Db.bookTestDrive, h,
      statusJson, messageBody, duplicateBookingError, JSValue.strictEqString]

/-- C4: against the model store, which keeps at most one booking per
`(user_id, car_id, date)` and signals SQLSTATE 45000 on a repeat, two
successive `POST /testdrive` requests with the same valid, not yet booked
triple give first 200 with the success message and then 400 with the
duplicate-booking message, and afterwards the store holds exactly one booking
for the triple. -/
theorem testdrive_twice (db : Db) (req : Request)
    (hu : (getField req.body "user_id").truthy = true)
    (hc : (getField req.body "car_id").truthy = true)
    (hd : (getField req.body "date").truthy = true)
    (hnew : (⟨getField req.body "user_id", getField req.body "car_id",
      getField req.body "date"⟩ : Booking) ∉ db.bookings) :
    ((postTestdrive req).run Db.exec db).response =
        some ⟨200, .object [("message", .string "Test drive booked successfully!")]⟩ ∧
    ((postTestdrive req).run Db.exec ((postTestdrive req).run Db.exec db).store).response =
        some ⟨400, .object
          [("message", .string "You already booked this car on this date.")]⟩ ∧
    (((postTestdrive req).run Db.exec
          ((postTestdrive req).run Db.exec db).store).store.bookings.filter fun b =>
        decide (b = ⟨getField req.body "user_id", getField req.body "car_id",
          getField req.body "date"⟩)).length = 1 := by
  have h1 := (postTestdrive_on_model db req hu hc hd).1 hnew
  have hin : (⟨getField req.body "user_id", getField req.body "car_id",
      getField req.body "date"⟩ : Booking) ∈
      ({ db with bookings := db.bookings ++ [⟨getField req.body "user_id",
        getField req.body "car_id", getField req.body "date"⟩] } : Db).bookings := by
    simp
  have h2 := (postTestdrive_on_model _ req hu hc hd).2 hin
  rw [h1.2]
  refine ⟨h1.1, h2.1, ?_⟩
  rw [h2.2]
  have hnil : (db.bookings.filter fun b =>
      decide (b = (⟨getField req.body "user_id", getField req.body "car_id",
        getField req.body "date"⟩ : Booking))) = [] := by
    apply List.filter_eq_nil_iff.2
    intro x hx hxb
    have : x = (⟨getField req.body "user_id", getField req.body "car_id",
        getField req.body "date"⟩ : Booking) := by simpa using hxb
    exact hnew (this ▸ hx)
  simp [List.filter_append, hnil]

/-- C4 on `sampleDb`: user 1 books car 2 for 2025-01-01 twice. -/
theorem testdrive_twice_witness :
    (getField sampleRequest.body "user_id").truthy = true ∧
    (getField sampleRequest.body "car_id").truthy = true ∧
    (getField sampleRequest.body "date").truthy = true ∧
    (⟨getField sampleRequest.body "user_id", getField sampleRequest.body "car_id",
      getField sampleRequest.body "date"⟩ : Booking) ∉ sampleDb.bookings ∧
    ((postTestdrive sampleRequest).run Db.exec sampleDb).response =
      some ⟨200, .object [("message", .string "Test drive booked successfully!")]⟩ ∧
    ((postTestdrive sampleRequest).run Db.exec
        ((postTestdrive sampleRequest).run Db.exec sampleDb).store).response =
      some ⟨400, .object
        [("message", .string "You already booked this car on this date.")]⟩ :=
  ⟨by decide, by decide, by decide, by decide,
    (testdrive_twice sampleDb sampleRequest (by decide) (by decide) (by decide)
      (by decide)).1,
    (testdrive_twice sampleDb sampleRequest (by decide) (by decide) (by decide)
      (by decide)).2.1⟩

end CarTinder
